import Mathlib

/-!
Shallow embedding of `connectors/sync_job_runner.py` (class `SyncJobRunner`).

External collaborators (job store, connector store, data provider, sync
orchestrator) are modelled by environment records that supply the outcome of
each awaited call: `none` means the call returned normally, `some e` means it
raised the exception `e`.  The runner's control flow is translated
line-by-line into pure functions that produce a trace of externally visible
events, so ordering and absence of calls can be stated as list properties.

Enumerations `JobType` and `JobStatus` come from `connectors.protocol`
(imported by the source file; the module itself is outside `src/`): the job
types used by the runner are FULL, INCREMENTAL, ACCESS_CONTROL, plus an
`unset` constructor standing for any other enum member (the runner treats all
of those uniformly via its fall-through branches).
-/

inductive JobType
| full
| incremental
| accessControl
| unset
deriving DecidableEq, Repr

inductive JobStatus
| pending
| inProgress
| canceling
| canceled
| suspended
| completed
| error
deriving DecidableEq, Repr

/-- `SyncJob.is_content_sync()`: the content-sync job family. -/
def isContentSync (jt : JobType) : Bool :=
  jt = JobType.full ∨ jt = JobType.incremental

/-- `OP_INDEX` from `connectors.es.sink`. -/
def OP_INDEX : String := "index"

/-- `ES_ID_SIZE_LIMIT = 512` (bytes). -/
def ES_ID_SIZE_LIMIT : Nat := 512

/-- The job's pipeline settings dict: the three keys read by the runner. -/
structure Pipeline where
  extract_binary_content : Bool
  reduce_whitespace : Bool
  run_ml_inference : Bool
deriving DecidableEq, Repr

/-- A source document (Python dict).  `id` is the optional `_id` entry; the
three flag fields are the optional pipeline-control entries written by
`prepare_docs`; `payload` stands for all remaining entries. -/
structure Doc where
  id : Option String
  extractBinaryContent : Option Bool
  reduceWhitespace : Option Bool
  runMlInference : Option Bool
  payload : String
deriving DecidableEq, Repr

/-- `str(doc.get("_id", ""))`. -/
def docIdStr (d : Doc) : String := d.id.getD ""

/-- A `(doc, lazy_download, operation)` triple as yielded by `generator` /
`prepare_docs`.  The lazy-download handle and the operation tag are opaque;
`none` models Python `None`. -/
abbrev DocItem := Doc × Option String × Option String

/-- Feature flags of the connector (`connector.features`). -/
structure Features where
  incrementalSyncEnabled : Bool
  syncRulesEnabled : Bool
  nativeConnectorApiKeysEnabled : Bool
deriving DecidableEq, Repr

/-- The connector record fields read by the runner. -/
structure Connector where
  id : String
  native : Bool
  features : Features
  syncCursor : Option String
  lastSyncStatus : Option JobStatus
  lastAccessControlSyncStatus : Option JobStatus
deriving DecidableEq, Repr

/-- The sync-job record fields read by the runner. -/
structure SyncJob where
  jobType : JobType
  syncCursor : Option String
  indexName : String
  pipeline : Pipeline
deriving DecidableEq, Repr

/-- The data provider (`source_klass` instance): the capability facts probed
by `_skip_unchanged_documents_enabled` and the three document streams, given
as the finite sequences the corresponding generators would yield.  `hashId`
is the source class's `hash_id` function. -/
structure DataProviderDef where
  hasGetDocsIncrementally : Bool
  getDocsIncrementallyIsBaseImpl : Bool
  getDocs : List (Doc × Option String)
  getDocsIncrementally : List DocItem
  getAccessControl : List Doc
  hashId : String → String

/-- Exceptions that can surface inside `execute`'s `try` block, mirroring the
`except` clauses: `cancelled` is `asyncio.CancelledError`, `jobCanceled` is
`ConnectorJobCanceledError`, `authz` is `elasticsearch.AuthorizationException`
(with its status code); the remaining constructors are ordinary `Exception`
subclasses raised by the runner or its collaborators. -/
inductive Exc
| cancelled
| jobCanceled
| authz (statusCode : Nat)
| unsupportedJobType (msg : Option String)
| insufficientLicense
| apiKeyNotFound (msg : String)
| connectorNotFound
| jobNotFound
| jobNotRunning (status : JobStatus)
| other (msg : String)
deriving DecidableEq, Repr

/-- A sync error recorded on the job: either a message string (the
authorization branch builds one) or the exception object itself. -/
inductive SyncError
| msg (s : String)
| exc (e : Exc)
deriving DecidableEq, Repr

/-- `SyncJobRunner._skip_unchanged_documents_enabled`. -/
def skipUnchangedDocumentsEnabled (jobType : JobType) (dp : DataProviderDef) : Bool :=
  if jobType ≠ JobType.incremental then false
  else if ¬ dp.hasGetDocsIncrementally then false
  else dp.getDocsIncrementallyIsBaseImpl

/-- `SyncJobRunner.generator`: the ordered match over
`[job_type, skip_unchanged_documents]`.  The streams are finite lists; the
`UnsupportedJobType` raise becomes an `Except.error`. -/
def generator (jobType : JobType) (dp : DataProviderDef) : Except Exc (List DocItem) :=
  match jobType, skipUnchangedDocumentsEnabled jobType dp with
  | JobType.full, _ =>
      Except.ok (dp.getDocs.map fun p => (p.1, p.2, some OP_INDEX))
  | JobType.incremental, false =>
      Except.ok dp.getDocsIncrementally
  | JobType.incremental, true =>
      Except.ok (dp.getDocs.map fun p => (p.1, p.2, some OP_INDEX))
  | JobType.accessControl, _ =>
      Except.ok (dp.getAccessControl.map fun d => (d, none, none))
  | JobType.unset, _ =>
      Except.error (Exc.unsupportedJobType none)

/-- The stamping step of `prepare_docs`: copy the three pipeline-control
flags from the job's pipeline settings onto the document. -/
def stampPipelineFlags (p : Pipeline) (d : Doc) : Doc :=
  { d with
    extractBinaryContent := some p.extract_binary_content
    reduceWhitespace := some p.reduce_whitespace
    runMlInference := some p.run_ml_inference }

/-- The per-item body of `SyncJobRunner.prepare_docs`: `none` models the
`continue` that drops a document whose hashed id is still over the limit. -/
def prepareDoc (hashId : String → String) (p : Pipeline) (t : DocItem) : Option DocItem :=
  let doc := t.1
  let docId := docIdStr doc
  let docIdSize := docId.utf8ByteSize
  if docIdSize > ES_ID_SIZE_LIMIT then
    let hashedId := hashId docId
    let hashedIdSize := hashedId.utf8ByteSize
    if hashedIdSize > ES_ID_SIZE_LIMIT then
      none
    else
      some (stampPipelineFlags p { doc with id := some hashedId }, t.2.1, t.2.2)
  else
    some (stampPipelineFlags p doc, t.2.1, t.2.2)

/-- `SyncJobRunner.prepare_docs` applied to a finite generator stream. -/
def prepare_docs (hashId : String → String) (p : Pipeline) (stream : List DocItem) :
    List DocItem :=
  stream.filterMap (prepareDoc hashId p)

/-- The document stream handed to `SyncOrchestrator.async_bulk` for each job
type: `_execute_content_sync_job` passes `self.prepare_docs()` while
`_execute_access_control_sync_job` passes `self.generator()` directly; other
job types never reach `async_bulk`. -/
def sinkStream (jobType : JobType) (dp : DataProviderDef) (p : Pipeline) :
    Except Exc (List DocItem) :=
  if jobType = JobType.full ∨ jobType = JobType.incremental then
    (generator jobType dp).map (prepare_docs dp.hashId p)
  else if jobType = JobType.accessControl then
    generator jobType dp
  else
    Except.error (Exc.unsupportedJobType none)

/-- Externally visible events emitted by one runner execution, in program
order.  `finalize` marks the `_sync_done(status, error)` call itself;
`persistJobStatus` is the store call (`fail`/`suspend`/`cancel`/`done`) it
issues when the job record could be reloaded; `connectorSyncDone` is
`connector.sync_done(..., cursor=...)`; `triggerFlush` and `updateMetadata`
are emitted by the progress-reporter task `update_ingestion_stats`. -/
inductive Event
| claim (cursor : Option String)
| instantiateProvider
| setSyncCursor (cursor : Option String)
| changedProbe
| setFeatures
| validateConfigFields
| validateConfig
| ping
| nativeAuth
| createOrchestrator
| licenseCheck
| validateFiltering
| prepareContentIndex
| asyncBulk (jobType : JobType)
| startReporting
| finalize (status : JobStatus) (err : Option SyncError)
| orchestratorCancel
| persistJobStatus (status : JobStatus) (err : Option SyncError)
| connectorSyncDone (cursor : Option String)
| closeOrchestrator
| closeProvider
| triggerFlush
| updateMetadata (cursor : Option String)
deriving DecidableEq, Repr

/-- The cursor expression shared by `_sync_done` and `update_ingestion_stats`:
`None` when the data provider was never initialized, otherwise the provider's
`sync_cursor()` for content syncs and `None` for access-control syncs. -/
def currentSyncCursor (dataProviderSet : Bool) (jobType : JobType)
    (providerCursor : Option String) : Option String :=
  if ¬ dataProviderSet then none
  else if isContentSync jobType then providerCursor
  else none

/-- Outcomes of the external calls made by one iteration of
`update_ingestion_stats`: whether `reload_sync_job` succeeded and what the
provider's `sync_cursor()` returns. -/
structure TickEnv where
  reloadSyncJobOk : Bool
  providerCursor : Option String
deriving DecidableEq, Repr

/-- One iteration of the `while True` loop of
`SyncJobRunner.update_ingestion_stats`, after the sleep: returns the events
it emits and `some newLastCursor`, or `none` for the `break` when the job
record is gone. -/
def reporterTick (dataProviderSet : Bool) (jobType : JobType) (env : TickEnv)
    (lastCursor : Option String) : List Event × Option (Option String) :=
  if ¬ env.reloadSyncJobOk then ([], none)
  else
    let cursor := currentSyncCursor dataProviderSet jobType env.providerCursor
    if cursor ≠ lastCursor then
      ([Event.triggerFlush, Event.updateMetadata cursor], some cursor)
    else
      ([Event.updateMetadata cursor], some lastCursor)

/-- Exceptions the connector store's `sync_starts` call can raise:
`elasticsearch.ConflictError` or anything else. -/
inductive StoreExc
| conflict
| other (msg : String)
deriving DecidableEq, Repr

/-- Outcomes of the external calls made by `SyncJobRunner.sync_starts`. -/
structure StartEnv where
  reloadConnectorOk : Bool
  storeExc : Option StoreExc
deriving DecidableEq, Repr

/-- Result of `SyncJobRunner.sync_starts`: normal return, a raised
`SyncJobStartError` (with its message and, for `raise ... from e`, the cause),
or a re-raised `elasticsearch.ConflictError`. -/
inductive StartResult
| ok
| startError (msg : Option String) (cause : Option String)
| conflict
deriving DecidableEq, Repr

/-- The `try` around `connector.sync_starts(job_type)`: a `ConflictError`
re-raises unchanged, any other exception is wrapped into
`SyncJobStartError from e`. -/
def syncStartsStoreCall (env : StartEnv) : StartResult :=
  match env.storeExc with
  | none => StartResult.ok
  | some StoreExc.conflict => StartResult.conflict
  | some (StoreExc.other m) => StartResult.startError none (some m)

/-- `SyncJobRunner.sync_starts` (body of the method; the
`with_concurrency_control` decorator lives outside this repository). -/
def sync_starts (conn : Connector) (jobType : JobType) (env : StartEnv) : StartResult :=
  if ¬ env.reloadConnectorOk then
    StartResult.startError (some ("Couldn't reload connector " ++ conn.id)) none
  else
    match jobType with
    | JobType.full | JobType.incremental =>
        if conn.lastSyncStatus = some JobStatus.inProgress then
          StartResult.startError
            (some ("A content sync job is started for connector " ++ conn.id
              ++ " by another connector instance")) none
        else
          syncStartsStoreCall env
    | JobType.accessControl =>
        if conn.lastAccessControlSyncStatus = some JobStatus.inProgress then
          StartResult.startError
            (some ("An access control sync job is started for connector " ++ conn.id
              ++ " by another connector instance")) none
        else
          syncStartsStoreCall env
    | JobType.unset =>
        StartResult.startError (some "Unknown job type. Skipping running sync job") none

/-- The error message built by the `ElasticAuthorizationException` handler in
`execute`. -/
def authzErrorMsg (indexName : String) (statusCode : Nat) : String :=
  "Connector is not authorized to access index [" ++ indexName
    ++ "]. API key may need to be regenerated. Status code: ["
    ++ toString statusCode ++ "]."

/-- The `except` ladder of `execute`: maps the exception that escaped the
`try` body to the `(sync_status, sync_error)` pair passed to `_sync_done`. -/
def exceptDispatch (indexName : String) : Exc → JobStatus × Option SyncError
  | Exc.cancelled => (JobStatus.suspended, none)
  | Exc.jobCanceled => (JobStatus.canceled, none)
  | Exc.authz statusCode =>
      (JobStatus.error, some (SyncError.msg (authzErrorMsg indexName statusCode)))
  | e => (JobStatus.error, some (SyncError.exc e))

/-- Outcomes of the external calls awaited inside `execute`'s `try` body and
its helpers `_execute_content_sync_job` / `_execute_access_control_sync_job`.
A `some e` field means the call raised `e` (an `asyncio.CancelledError` at
any await point is `some Exc.cancelled`); `loopOutcome` is the result of the
`while not done()` polling loop: `Except.error e` when a `check_job` call (or
the cancellation of the sleep) raised `e`, `Except.ok err` when the
orchestrator completed with `get_error() = err`. -/
structure BodyEnv where
  claimExc : Option Exc
  changed : Bool
  validateConfigFieldsExc : Option Exc
  validateConfigExc : Option Exc
  pingExc : Option Exc
  useNativeApiKeysConfig : Bool
  nativeAuthExc : Option Exc
  requiresPlatinum : Bool
  platinumLicenseEnabled : Bool
  validateFilteringExc : Option Exc
  prepareContentIndexExc : Option Exc
  asyncBulkExc : Option Exc
  loopOutcome : Except Exc (Option SyncError)

/-- Outcomes of the external calls made by `_sync_done`. -/
structure DoneEnv where
  reloadSyncJobOk : Bool
  reloadConnectorOk : Bool
  providerCursor : Option String
deriving DecidableEq, Repr

/-- How control leaves `execute`'s `try` body: the early `return` after a
negative `changed()` probe (which runs `_sync_done(COMPLETED)`), normal loop
completion carrying `get_error()`, or a raised exception. -/
inductive BodyExit
| earlyCompleted
| finished (err : Option SyncError)
| raised (e : Exc)
deriving DecidableEq, Repr

/-- Result of running `execute`'s `try` body: emitted events, the exit kind,
and which resources were created on the way (`self.data_provider`,
`self.sync_orchestrator`, `self.job_reporting_task`). -/
structure BodyResult where
  events : List Event
  exit : BodyExit
  dataProviderSet : Bool
  orchestratorSet : Bool
  reportingTaskSet : Bool
deriving DecidableEq, Repr

/-- `SyncJobRunner._execute_content_sync_job`: events emitted and the
exception raised, if any.  The `UnsupportedJobType` guard for incremental
jobs without the feature flag runs before everything else. -/
def contentSyncEvents (job : SyncJob) (conn : Connector) (env : BodyEnv) :
    List Event × Option Exc :=
  if job.jobType = JobType.incremental ∧ ¬ conn.features.incrementalSyncEnabled then
    ([], some (Exc.unsupportedJobType
      (some ("Connector " ++ conn.id ++ " does not support incremental sync."))))
  else
    let filteringEvents :=
      if conn.features.syncRulesEnabled then [Event.validateFiltering] else []
    if conn.features.syncRulesEnabled ∧ env.validateFilteringExc.isSome then
      (filteringEvents, env.validateFilteringExc)
    else
      match env.prepareContentIndexExc with
      | some e => (filteringEvents ++ [Event.prepareContentIndex], some e)
      | none =>
          match env.asyncBulkExc with
          | some e =>
              (filteringEvents ++ [Event.prepareContentIndex, Event.asyncBulk job.jobType],
                some e)
          | none =>
              (filteringEvents ++ [Event.prepareContentIndex, Event.asyncBulk job.jobType],
                none)

/-- `SyncJobRunner._execute_access_control_sync_job`: events emitted and the
exception raised, if any. -/
def aclSyncEvents (env : BodyEnv) : List Event × Option Exc :=
  if env.requiresPlatinum then
    if ¬ env.platinumLicenseEnabled then
      ([Event.licenseCheck], some Exc.insufficientLicense)
    else
      match env.asyncBulkExc with
      | some e => ([Event.licenseCheck, Event.asyncBulk JobType.accessControl], some e)
      | none => ([Event.licenseCheck, Event.asyncBulk JobType.accessControl], none)
  else
    match env.asyncBulkExc with
    | some e => ([Event.asyncBulk JobType.accessControl], some e)
    | none => ([Event.asyncBulk JobType.accessControl], none)

/-- The `try` body of `SyncJobRunner.execute`, from the `sync_cursor`
computation down to the polling loop, translated statement by statement. -/
def tryBody (job : SyncJob) (conn : Connector) (env : BodyEnv) : BodyResult :=
  let syncCursor :=
    if job.jobType = JobType.incremental ∨ job.jobType = JobType.full then
      conn.syncCursor
    else
      none
  match env.claimExc with
  | some e => ⟨[Event.claim syncCursor], BodyExit.raised e, false, false, false⟩
  | none =>
    let ev1 := [Event.claim syncCursor, Event.instantiateProvider]
      ++ (if job.syncCursor.isSome ∧ job.jobType = JobType.full then
            [Event.setSyncCursor job.syncCursor]
          else [])
      ++ [Event.changedProbe]
    if ¬ env.changed then
      ⟨ev1, BodyExit.earlyCompleted, true, false, false⟩
    else
      let ev2 := ev1 ++ [Event.setFeatures, Event.validateConfigFields]
      match env.validateConfigFieldsExc with
      | some e => ⟨ev2, BodyExit.raised e, true, false, false⟩
      | none =>
        let ev3 := ev2 ++ [Event.validateConfig]
        match env.validateConfigExc with
        | some e => ⟨ev3, BodyExit.raised e, true, false, false⟩
        | none =>
          let ev4 := ev3 ++ [Event.ping]
          match env.pingExc with
          | some e => ⟨ev4, BodyExit.raised e, true, false, false⟩
          | none =>
            let nativePath := conn.native ∧ conn.features.nativeConnectorApiKeysEnabled
              ∧ env.useNativeApiKeysConfig
            let ev5 := ev4 ++ (if nativePath then [Event.nativeAuth] else [])
            if h : nativePath ∧ env.nativeAuthExc.isSome then
              ⟨ev5, BodyExit.raised (env.nativeAuthExc.get h.2), true, false, false⟩
            else
              let ev6 := ev5 ++ [Event.createOrchestrator]
              let dispatched :=
                match job.jobType with
                | JobType.full => some (contentSyncEvents job conn env)
                | JobType.incremental => some (contentSyncEvents job conn env)
                | JobType.accessControl => some (aclSyncEvents env)
                | JobType.unset => none
              match dispatched with
              | none =>
                  ⟨ev6, BodyExit.raised (Exc.unsupportedJobType none), true, true, false⟩
              | some (devs, some e) =>
                  ⟨ev6 ++ devs, BodyExit.raised e, true, true, false⟩
              | some (devs, none) =>
                  let ev7 := ev6 ++ devs ++ [Event.startReporting]
                  match env.loopOutcome with
                  | Except.error e => ⟨ev7, BodyExit.raised e, true, true, true⟩
                  | Except.ok err => ⟨ev7, BodyExit.finished err, true, true, true⟩

/-- The `(sync_status, sync_error)` pair with which `_sync_done` ends up
being called for a given body exit: the early-return path passes `COMPLETED`,
normal completion derives the status from `get_error()`, and a raised
exception goes through the `except` ladder. -/
def exitStatus (indexName : String) : BodyExit → JobStatus × Option SyncError
  | BodyExit.earlyCompleted => (JobStatus.completed, none)
  | BodyExit.finished err =>
      (if err = none then JobStatus.completed else JobStatus.error, err)
  | BodyExit.raised e => exceptDispatch indexName e

/-- `SyncJobRunner._sync_done`: cancels the orchestrator when one exists,
persists the terminal status via `fail`/`suspend`/`cancel`/`done` when the
job record reloads, and calls `connector.sync_done` with the cursor when the
connector record reloads. -/
def sync_done (denv : DoneEnv) (jobType : JobType)
    (orchestratorSet dataProviderSet : Bool)
    (status : JobStatus) (err : Option SyncError) : List Event :=
  [Event.finalize status err]
    ++ (if orchestratorSet then [Event.orchestratorCancel] else [])
    ++ (if denv.reloadSyncJobOk then
          [Event.persistJobStatus status (if status = JobStatus.error then err else none)]
        else [])
    ++ (if denv.reloadConnectorOk then
          [Event.connectorSyncDone
            (currentSyncCursor dataProviderSet jobType denv.providerCursor)]
        else [])

/-- Runner-instance state relevant to `execute`: the re-entry flag and the
resources belonging to the run in progress. -/
structure RunnerState where
  running : Bool
  dataProviderSet : Bool
  orchestratorSet : Bool
  reportingTaskSet : Bool
deriving DecidableEq, Repr

/-- What `execute` does as seen from its caller: raise `SyncJobRunningError`
(re-entry), propagate an exception out of `sync_starts` (which runs before
the `try`), or return normally after `_sync_done` ran with the given pair. -/
inductive ExecOutcome
| busy
| startRaised (r : StartResult)
| returned (status : JobStatus) (err : Option SyncError)
deriving DecidableEq, Repr

/-- Result of one `execute` call: the event trace, the outcome, and the
runner state afterwards. -/
structure ExecResult where
  trace : List Event
  outcome : ExecOutcome
  finalState : RunnerState
deriving DecidableEq, Repr

/-- `SyncJobRunner.execute`: the re-entry guard, `sync_starts`, the `try`
body, the single `_sync_done` call every path inside the `try` performs, and
the `finally` block (reset `running`, close orchestrator and provider).  When
`sync_starts` raises, the `try` is never entered, so no `_sync_done` and no
`finally` run and `running` stays set. -/
def execute (st : RunnerState) (job : SyncJob) (conn : Connector)
    (senv : StartEnv) (env : BodyEnv) (denv : DoneEnv) : ExecResult :=
  if st.running then
    ⟨[], ExecOutcome.busy, st⟩
  else
    match sync_starts conn job.jobType senv with
    | StartResult.startError m c =>
        ⟨[], ExecOutcome.startRaised (StartResult.startError m c),
          ⟨true, st.dataProviderSet, st.orchestratorSet, st.reportingTaskSet⟩⟩
    | StartResult.conflict =>
        ⟨[], ExecOutcome.startRaised StartResult.conflict,
          ⟨true, st.dataProviderSet, st.orchestratorSet, st.reportingTaskSet⟩⟩
    | StartResult.ok =>
        let b := tryBody job conn env
        let se := exitStatus job.indexName b.exit
        ⟨b.events
           ++ sync_done denv job.jobType b.orchestratorSet b.dataProviderSet se.1 se.2
           ++ (if b.orchestratorSet then [Event.closeOrchestrator] else [])
           ++ (if b.dataProviderSet then [Event.closeProvider] else []),
         ExecOutcome.returned se.1 se.2,
         ⟨false, b.dataProviderSet, b.orchestratorSet, b.reportingTaskSet⟩⟩

/-- Example pipeline settings used for concrete evaluations. -/
def pipelineEx : Pipeline := ⟨true, false, true⟩

/-- Example document with a short id and no pipeline-control entries. -/
def docEx : Doc := ⟨some "doc-1", none, none, none, "body"⟩

/-- Example access-control document (no pipeline-control entries). -/
def docPlainEx : Doc := ⟨some "u1", none, none, none, "p"⟩

/-- Example data provider serving one content document. -/
def dpEx : DataProviderDef := ⟨true, true, [(docEx, some "dl")], [], [docEx], fun s => s⟩

/-- Example data provider serving one access-control document. -/
def dpAclEx : DataProviderDef := ⟨true, true, [], [], [docPlainEx], fun s => s⟩

/-- A document id of 180 three-byte characters: 540 UTF-8 bytes, over the
512-byte limit. -/
def longIdEx : String := String.mk (List.replicate 180 'あ')

/-- Example document whose id is over the ES id size limit. -/
def longDocEx : Doc := ⟨some longIdEx, none, none, none, "long"⟩

/-- Example full-sync job. -/
def jobEx : SyncJob := ⟨JobType.full, none, "search-idx", pipelineEx⟩

/-- Example incremental-sync job. -/
def jobIncEx : SyncJob := ⟨JobType.incremental, none, "search-idx-2", pipelineEx⟩

/-- Example access-control-sync job. -/
def jobAclEx : SyncJob := ⟨JobType.accessControl, none, "search-idx-3", pipelineEx⟩

/-- Example connector features (incremental sync enabled). -/
def featuresEx : Features := ⟨true, false, false⟩

/-- Example connector with no in-progress jobs. -/
def connEx : Connector := ⟨"c1", false, featuresEx, some "cur", none, none⟩

/-- Example connector whose features do not enable incremental sync. -/
def connNoIncEx : Connector := ⟨"c2", false, ⟨false, false, false⟩, some "cur", none, none⟩

/-- Example connector with an in-progress content sync. -/
def connBusyEx : Connector := ⟨"c3", false, featuresEx, none, some JobStatus.inProgress, none⟩

/-- Start environment where every store call succeeds. -/
def senvEx : StartEnv := ⟨true, none⟩

/-- Start environment where `connector.sync_starts` raises `ConflictError`. -/
def senvConflictEx : StartEnv := ⟨true, some StoreExc.conflict⟩

/-- Start environment where `connector.sync_starts` raises a non-conflict
exception. -/
def senvOtherEx : StartEnv := ⟨true, some (StoreExc.other "boom")⟩

/-- Body environment where every awaited call succeeds and the orchestrator
completes without error. -/
def envEx : BodyEnv := ⟨none, true, none, none, none, true, none, false, true, none, none, none, Except.ok none⟩

/-- Body environment where `ping()` raises an authorization exception with
status code 403. -/
def envAuthzEx : BodyEnv := { envEx with pingExc := some (Exc.authz 403) }

/-- Body environment where the change probe reports no change. -/
def envNoChangeEx : BodyEnv := { envEx with changed := false }

/-- Finalization environment where both records reload and the provider
reports a cursor. -/
def denvEx : DoneEnv := ⟨true, true, some "pc"⟩

/-- Runner state with no run in progress. -/
def stIdle : RunnerState := ⟨false, false, false, false⟩

/-- Runner state with a run in progress (provider already instantiated). -/
def stBusy : RunnerState := ⟨true, true, false, false⟩

/-- Reporter-tick environment where the job reloads and the provider reports
a cursor. -/
def tickEnvEx : TickEnv := ⟨true, some "cursor-1"⟩

theorem mem_contentSyncEvents_shape (job : SyncJob) (conn : Connector) (env : BodyEnv) :
    ∀ ev ∈ (contentSyncEvents job conn env).1,
      ev = Event.validateFiltering ∨ ev = Event.prepareContentIndex ∨
        ev = Event.asyncBulk job.jobType := by
  intro ev hev
  unfold contentSyncEvents at hev
  split_ifs at hev <;>
    rcases hpc : env.prepareContentIndexExc with _ | pe <;>
    rcases hab : env.asyncBulkExc with _ | be <;>
    simp_all <;>
    tauto

theorem mem_aclSyncEvents_shape (env : BodyEnv) :
    ∀ ev ∈ (aclSyncEvents env).1,
      ev = Event.licenseCheck ∨ ev = Event.asyncBulk JobType.accessControl := by
  intro ev hev
  unfold aclSyncEvents at hev
  split_ifs at hev <;>
    rcases hab : env.asyncBulkExc with _ | be <;>
    simp_all

set_option maxHeartbeats 1000000 in
theorem connectorSyncDone_not_mem_tryBody (job : SyncJob) (conn : Connector)
    (env : BodyEnv) (c : Option String) :
    Event.connectorSyncDone c ∉ (tryBody job conn env).events := by
  intro hev
  unfold tryBody at hev
  rcases hce : env.claimExc with _ | ex <;> simp only [hce] at hev
  · rcases hch : env.changed <;> simp only [hch, Bool.not_true, Bool.not_false] at hev
    · split_ifs at hev <;> simp_all
    · rcases hv1 : env.validateConfigFieldsExc with _ | e1 <;> simp only [hv1] at hev
      · rcases hv2 : env.validateConfigExc with _ | e2 <;> simp only [hv2] at hev
        · rcases hv3 : env.pingExc with _ | e3 <;> simp only [hv3] at hev
          · rcases hjt : job.jobType <;> simp only [hjt] at hev
            · rcases hpair : contentSyncEvents job conn env with ⟨devs, oe⟩
              have hnc : Event.connectorSyncDone c ∉ devs := by
                intro hm
                have hsh := mem_contentSyncEvents_shape job conn env
                rw [hpair] at hsh
                rcases hsh _ hm with h | h | h <;> simp_all
              rcases oe with _ | de <;> simp only [hpair] at hev
              · rcases hlo : env.loopOutcome with le | lok <;> simp only [hlo] at hev <;>
                  split_ifs at hev <;> simp_all
              · split_ifs at hev <;> simp_all
            · rcases hpair : contentSyncEvents job conn env with ⟨devs, oe⟩
              have hnc : Event.connectorSyncDone c ∉ devs := by
                intro hm
                have hsh := mem_contentSyncEvents_shape job conn env
                rw [hpair] at hsh
                rcases hsh _ hm with h | h | h <;> simp_all
              rcases oe with _ | de <;> simp only [hpair] at hev
              · rcases hlo : env.loopOutcome with le | lok <;> simp only [hlo] at hev <;>
                  split_ifs at hev <;> simp_all
              · split_ifs at hev <;> simp_all
            · rcases hpair : aclSyncEvents env with ⟨devs, oe⟩
              have hnc : Event.connectorSyncDone c ∉ devs := by
                intro hm
                have hsh := mem_aclSyncEvents_shape env
                rw [hpair] at hsh
                rcases hsh _ hm with h | h <;> simp_all
              rcases oe with _ | de <;> simp only [hpair] at hev
              · rcases hlo : env.loopOutcome with le | lok <;> simp only [hlo] at hev <;>
                  split_ifs at hev <;> simp_all
              · split_ifs at hev <;> simp_all
            · split_ifs at hev <;> simp_all
          · split_ifs at hev <;> simp_all
        · split_ifs at hev <;> simp_all
      · split_ifs at hev <;> simp_all
  · simp at hev

/-- C9: while a run is in progress (`running` set), a second `execute()` call
raises `SyncJobRunningError` immediately: it emits no events (no external
state of the ongoing run is touched) and leaves the runner state unchanged. -/
theorem execute_rejects_reentry (st : RunnerState) (job : SyncJob) (conn : Connector)
    (senv : StartEnv) (env : BodyEnv) (denv : DoneEnv) (h : st.running = true) :
    execute st job conn senv env denv = ⟨[], ExecOutcome.busy, st⟩ := by
  simp [execute, h]

/-- Witness for C9 at a concrete busy runner. -/
theorem execute_rejects_reentry_witness :
    execute stBusy jobEx connEx senvEx envEx denvEx = ⟨[], ExecOutcome.busy, stBusy⟩ :=
  execute_rejects_reentry stBusy jobEx connEx senvEx envEx denvEx rfl

/-- C2: the generator dispatch.  Optimization eligibility holds exactly when
the job is incremental, the provider has `get_docs_incrementally`, and that
method is still the `BaseDataSource` implementation; a full job uses
`get_docs` tagging every item `OP_INDEX`; a non-eligible incremental job
passes the `get_docs_incrementally` stream through unchanged; an eligible
incremental job falls back to `get_docs` tagging `OP_INDEX`; an
access-control job yields its docs with no lazy-download handle and no
operation tag; any other job type raises `UnsupportedJobType`. -/
theorem generator_dispatch (dp : DataProviderDef) (jt : JobType) :
    (skipUnchangedDocumentsEnabled jt dp = true ↔
      (jt = JobType.incremental ∧ dp.hasGetDocsIncrementally = true ∧
        dp.getDocsIncrementallyIsBaseImpl = true)) ∧
    generator JobType.full dp =
      Except.ok (dp.getDocs.map fun p => (p.1, p.2, some OP_INDEX)) ∧
    (skipUnchangedDocumentsEnabled JobType.incremental dp = false →
      generator JobType.incremental dp = Except.ok dp.getDocsIncrementally) ∧
    (skipUnchangedDocumentsEnabled JobType.incremental dp = true →
      generator JobType.incremental dp =
        Except.ok (dp.getDocs.map fun p => (p.1, p.2, some OP_INDEX))) ∧
    generator JobType.accessControl dp =
      Except.ok (dp.getAccessControl.map fun d => (d, none, none)) ∧
    generator JobType.unset dp = Except.error (Exc.unsupportedJobType none) := by
  refine ⟨?_, rfl, ?_, ?_, rfl, rfl⟩
  · cases jt with
    | incremental =>
        simp only [skipUnchangedDocumentsEnabled]
        cases h : dp.hasGetDocsIncrementally <;> simp [h]
    | full => simp [skipUnchangedDocumentsEnabled]
    | accessControl => simp [skipUnchangedDocumentsEnabled]
    | unset => simp [skipUnchangedDocumentsEnabled]
  · intro h
    simp [generator, h]
  · intro h
    simp [generator, h]

/-- Witness for C2: a provider relying on the base incremental
implementation is optimization-eligible, and its incremental job full-scans
with `OP_INDEX` tags. -/
theorem generator_dispatch_witness :
    skipUnchangedDocumentsEnabled JobType.incremental dpEx = true ∧
    generator JobType.incremental dpEx =
      Except.ok (dpEx.getDocs.map fun p => (p.1, p.2, some OP_INDEX)) :=
  ⟨(generator_dispatch dpEx JobType.incremental).1.mpr ⟨rfl, rfl, rfl⟩,
   (generator_dispatch dpEx JobType.incremental).2.2.2.1
     ((generator_dispatch dpEx JobType.incremental).1.mpr ⟨rfl, rfl, rfl⟩)⟩

/-- C3: in a reporter iteration whose computed cursor differs from the
previous one, the tick's event sequence is exactly flush-then-persist (the
flush completes before `update_metadata` persists the new cursor); when the
cursor is unchanged, only the persist happens, with no flush. -/
theorem reporter_flush_before_persist (dps : Bool) (jt : JobType) (tenv : TickEnv)
    (last : Option String) (hreload : tenv.reloadSyncJobOk = true) :
    (currentSyncCursor dps jt tenv.providerCursor ≠ last →
      reporterTick dps jt tenv last =
        ([Event.triggerFlush,
          Event.updateMetadata (currentSyncCursor dps jt tenv.providerCursor)],
         some (currentSyncCursor dps jt tenv.providerCursor))) ∧
    (currentSyncCursor dps jt tenv.providerCursor = last →
      reporterTick dps jt tenv last = ([Event.updateMetadata last], some last)) := by
  constructor
  · intro h
    simp [reporterTick, hreload, h]
  · intro h
    simp [reporterTick, hreload, h]

/-- Witness for C3: first tick after start (`last = none`) with a content
cursor triggers a flush before persisting; a tick with the same cursor does
not flush. -/
theorem reporter_flush_before_persist_witness :
    reporterTick true JobType.full tickEnvEx none =
      ([Event.triggerFlush, Event.updateMetadata (some "cursor-1")], some (some "cursor-1")) ∧
    reporterTick true JobType.full tickEnvEx (some "cursor-1") =
      ([Event.updateMetadata (some "cursor-1")], some (some "cursor-1")) :=
  ⟨(reporter_flush_before_persist true JobType.full tickEnvEx none rfl).1 (by decide),
   (reporter_flush_before_persist true JobType.full tickEnvEx (some "cursor-1") rfl).2 (by decide)⟩

/-- C4: the id-size normalization of `prepare_docs`.  A document whose id
exceeds 512 UTF-8 bytes has its id replaced by the source's hash of the id;
if the hashed id is still over the limit the document is dropped while the
surrounding stream is forwarded unchanged (the adapter never fails); a
document whose id is within the limit keeps its id. -/
theorem prepare_docs_id_limit (hashId : String → String) (p : Pipeline)
    (d : Doc) (l op : Option String) :
    ((docIdStr d).utf8ByteSize > ES_ID_SIZE_LIMIT →
      (hashId (docIdStr d)).utf8ByteSize ≤ ES_ID_SIZE_LIMIT →
      prepareDoc hashId p (d, l, op) =
        some (stampPipelineFlags p { d with id := some (hashId (docIdStr d)) }, l, op)) ∧
    ((docIdStr d).utf8ByteSize > ES_ID_SIZE_LIMIT →
      (hashId (docIdStr d)).utf8ByteSize > ES_ID_SIZE_LIMIT →
      prepareDoc hashId p (d, l, op) = none ∧
      ∀ xs ys, prepare_docs hashId p (xs ++ (d, l, op) :: ys) =
        prepare_docs hashId p xs ++ prepare_docs hashId p ys) ∧
    ((docIdStr d).utf8ByteSize ≤ ES_ID_SIZE_LIMIT →
      prepareDoc hashId p (d, l, op) = some (stampPipelineFlags p d, l, op) ∧
      (stampPipelineFlags p d).id = d.id) := by
  refine ⟨?_, ?_, ?_⟩
  · intro h1 h2
    simp [prepareDoc, h1, Nat.not_lt.mpr h2]
  · intro h1 h2
    have hnone : prepareDoc hashId p (d, l, op) = none := by
      simp [prepareDoc, h1, h2]
    refine ⟨hnone, ?_⟩
    intro xs ys
    simp [prepare_docs, List.filterMap_append, List.filterMap_cons, hnone]
  · intro h1
    exact ⟨by simp [prepareDoc, Nat.not_lt.mpr h1], rfl⟩

set_option maxRecDepth 4000 in
/-- Witness for C4: an over-limit id is hashed into place when the hash
fits; with an identity hash the same document is dropped and its neighbours
are forwarded; a short id is untouched. -/
theorem prepare_docs_id_limit_witness :
    prepareDoc (fun _ => "h1") pipelineEx (longDocEx, none, some "index") =
      some (stampPipelineFlags pipelineEx { longDocEx with id := some "h1" }, none, some "index") ∧
    (prepareDoc (fun s => s) pipelineEx (longDocEx, none, some "index") = none ∧
      prepare_docs (fun s => s) pipelineEx
          [(docEx, none, some "index"), (longDocEx, none, some "index"), (docPlainEx, none, none)] =
        prepare_docs (fun s => s) pipelineEx [(docEx, none, some "index")] ++
          prepare_docs (fun s => s) pipelineEx [(docPlainEx, none, none)]) ∧
    prepareDoc (fun s => s) pipelineEx (docEx, none, some "index") =
      some (stampPipelineFlags pipelineEx docEx, none, some "index") := by
  have hbig : (docIdStr longDocEx).utf8ByteSize > ES_ID_SIZE_LIMIT := by decide
  refine ⟨?_, ⟨?_, ?_⟩, ?_⟩
  · exact (prepare_docs_id_limit (fun _ => "h1") pipelineEx longDocEx none (some "index")).1
      hbig (by decide)
  · exact ((prepare_docs_id_limit (fun s => s) pipelineEx longDocEx none (some "index")).2.1
      hbig hbig).1
  · exact ((prepare_docs_id_limit (fun s => s) pipelineEx longDocEx none (some "index")).2.1
      hbig hbig).2 [(docEx, none, some "index")] [(docPlainEx, none, none)]
  · exact ((prepare_docs_id_limit (fun s => s) pipelineEx docEx none (some "index")).2.2
      (by decide)).1

/-- Counterexample to C5 as stated: for an AccessControl job the runner hands
`generator()` straight to `async_bulk` without running `prepare_docs`, so a
forwarded document carries none of the three pipeline-control flags even
though the job's pipeline sets them. -/
theorem sink_stream_acl_unstamped :
    sinkStream JobType.accessControl dpAclEx pipelineEx =
      Except.ok [(docPlainEx, none, none)] ∧
    docPlainEx.extractBinaryContent ≠ some pipelineEx.extract_binary_content ∧
    docPlainEx.reduceWhitespace ≠ some pipelineEx.reduce_whitespace ∧
    docPlainEx.runMlInference ≠ some pipelineEx.run_ml_inference :=
  ⟨rfl, by decide, by decide, by decide⟩

/-- C5 (amended): for content-sync job types (Full or Incremental) every
document forwarded to the Bulk Sink carries the three pipeline-control flags
copied verbatim from the job's pipeline settings; AccessControl documents are
forwarded as produced, without the flags. -/
theorem sink_stream_content_flags (jt : JobType) (dp : DataProviderDef) (p : Pipeline)
    (hjt : jt = JobType.full ∨ jt = JobType.incremental)
    (items : List DocItem) (hs : sinkStream jt dp p = Except.ok items) :
    ∀ x ∈ items,
      x.1.extractBinaryContent = some p.extract_binary_content ∧
      x.1.reduceWhitespace = some p.reduce_whitespace ∧
      x.1.runMlInference = some p.run_ml_inference := by
  intro x hx
  rw [sinkStream, if_pos hjt] at hs
  rcases hg : generator jt dp with e | s
  · rw [hg] at hs
    simp [Except.map] at hs
  · rw [hg] at hs
    simp only [Except.map, Except.ok.injEq] at hs
    subst hs
    rcases List.mem_filterMap.mp hx with ⟨a, _, ha⟩
    rcases a with ⟨ad, al, ao⟩
    rw [prepareDoc] at ha
    by_cases hbig : (docIdStr ad).utf8ByteSize > ES_ID_SIZE_LIMIT
    · rw [if_pos hbig] at ha
      by_cases hh : (dp.hashId (docIdStr ad)).utf8ByteSize > ES_ID_SIZE_LIMIT
      · rw [if_pos hh] at ha
        simp at ha
      · rw [if_neg hh] at ha
        simp only [Option.some.injEq] at ha
        subst ha
        exact ⟨rfl, rfl, rfl⟩
    · rw [if_neg hbig] at ha
      simp only [Option.some.injEq] at ha
      subst ha
      exact ⟨rfl, rfl, rfl⟩

/-- Witness for the amended C5: the one document of a full sync arrives at
the sink with all three flags copied from the pipeline. -/
theorem sink_stream_content_flags_witness :
    (stampPipelineFlags pipelineEx docEx).extractBinaryContent =
      some pipelineEx.extract_binary_content ∧
    (stampPipelineFlags pipelineEx docEx).reduceWhitespace =
      some pipelineEx.reduce_whitespace ∧
    (stampPipelineFlags pipelineEx docEx).runMlInference =
      some pipelineEx.run_ml_inference :=
  sink_stream_content_flags JobType.full dpEx pipelineEx (Or.inl rfl)
    [(stampPipelineFlags pipelineEx docEx, some "dl", some OP_INDEX)] rfl
    (stampPipelineFlags pipelineEx docEx, some "dl", some OP_INDEX) (by decide)

/-- C6: `sync_starts` fails with `SyncJobStartError` when the connector
reports an in-progress job of the same family; once the family check passes,
a `ConflictError` from the store's `sync_starts` call propagates unchanged
while any other exception from that call is wrapped into a
`SyncJobStartError` with it as cause. -/
theorem sync_starts_conflict_asymmetry (conn : Connector) (jt : JobType) (senv : StartEnv)
    (hreload : senv.reloadConnectorOk = true) :
    ((jt = JobType.full ∨ jt = JobType.incremental) →
      conn.lastSyncStatus = some JobStatus.inProgress →
      ∃ m, sync_starts conn jt senv = StartResult.startError (some m) none) ∧
    (jt = JobType.accessControl →
      conn.lastAccessControlSyncStatus = some JobStatus.inProgress →
      ∃ m, sync_starts conn jt senv = StartResult.startError (some m) none) ∧
    ((((jt = JobType.full ∨ jt = JobType.incremental) ∧
        conn.lastSyncStatus ≠ some JobStatus.inProgress) ∨
      (jt = JobType.accessControl ∧
        conn.lastAccessControlSyncStatus ≠ some JobStatus.inProgress)) →
      (senv.storeExc = some StoreExc.conflict →
        sync_starts conn jt senv = StartResult.conflict) ∧
      (∀ m, senv.storeExc = some (StoreExc.other m) →
        sync_starts conn jt senv = StartResult.startError none (some m))) := by
  refine ⟨?_, ?_, ?_⟩
  · rintro (hjt | hjt) hip <;> subst hjt <;>
      exact ⟨"A content sync job is started for connector " ++ conn.id
          ++ " by another connector instance", by simp [sync_starts, hreload, hip]⟩
  · rintro hjt hip
    subst hjt
    exact ⟨"An access control sync job is started for connector " ++ conn.id
        ++ " by another connector instance", by simp [sync_starts, hreload, hip]⟩
  · rintro (⟨hjt | hjt, hip⟩ | ⟨hjt, hip⟩) <;> subst hjt <;>
      exact ⟨fun hs => by simp [sync_starts, hreload, hip, syncStartsStoreCall, hs],
             fun m hs => by simp [sync_starts, hreload, hip, syncStartsStoreCall, hs]⟩

/-- Witness for C6: a connector with an in-progress content sync is rejected
with a StartError; with a free connector, a store-level ConflictError
propagates as-is while another store exception is wrapped. -/
theorem sync_starts_conflict_asymmetry_witness :
    (∃ m, sync_starts connBusyEx JobType.full senvEx = StartResult.startError (some m) none) ∧
    sync_starts connEx JobType.full senvConflictEx = StartResult.conflict ∧
    sync_starts connEx JobType.full senvOtherEx = StartResult.startError none (some "boom") :=
  ⟨(sync_starts_conflict_asymmetry connBusyEx JobType.full senvEx rfl).1 (Or.inl rfl) rfl,
   ((sync_starts_conflict_asymmetry connEx JobType.full senvConflictEx rfl).2.2
      (Or.inl ⟨Or.inl rfl, by decide⟩)).1 rfl,
   ((sync_starts_conflict_asymmetry connEx JobType.full senvOtherEx rfl).2.2
      (Or.inl ⟨Or.inl rfl, by decide⟩)).2 "boom" rfl⟩

theorem persist_mem_execute (st : RunnerState) (job : SyncJob) (conn : Connector)
    (senv : StartEnv) (env : BodyEnv) (denv : DoneEnv)
    (hrun : st.running = false)
    (hstart : sync_starts conn job.jobType senv = StartResult.ok)
    (hreload : denv.reloadSyncJobOk = true)
    (s : JobStatus) (er : Option SyncError)
    (hse : exitStatus job.indexName (tryBody job conn env).exit = (s, er)) :
    Event.persistJobStatus s (if s = JobStatus.error then er else none)
      ∈ (execute st job conn senv env denv).trace := by
  simp only [execute, hrun, Bool.false_eq_true, if_false, hstart, hse]
  simp [sync_done, hreload, List.mem_append]

/-- C1: the terminal status persisted at finalization is determined by the
cause of termination: `asyncio.CancelledError` persists Suspended;
`ConnectorJobCanceledError` persists Canceled; an authorization rejection
persists Error with a message containing the index name and the status code;
any other uncaught exception persists Error with the exception itself as the
sync error. -/
theorem execute_error_status_mapping (st : RunnerState) (job : SyncJob)
    (conn : Connector) (senv : StartEnv) (env : BodyEnv) (denv : DoneEnv) (e : Exc)
    (hrun : st.running = false)
    (hstart : sync_starts conn job.jobType senv = StartResult.ok)
    (hreload : denv.reloadSyncJobOk = true)
    (hexit : (tryBody job conn env).exit = BodyExit.raised e) :
    (e = Exc.cancelled →
      Event.persistJobStatus JobStatus.suspended none
        ∈ (execute st job conn senv env denv).trace) ∧
    (e = Exc.jobCanceled →
      Event.persistJobStatus JobStatus.canceled none
        ∈ (execute st job conn senv env denv).trace) ∧
    (∀ code, e = Exc.authz code →
      Event.persistJobStatus JobStatus.error
          (some (SyncError.msg (authzErrorMsg job.indexName code)))
        ∈ (execute st job conn senv env denv).trace ∧
      ∃ s1 s2 s3, authzErrorMsg job.indexName code =
        s1 ++ job.indexName ++ s2 ++ toString code ++ s3) ∧
    (e ≠ Exc.cancelled → e ≠ Exc.jobCanceled → (∀ code, e ≠ Exc.authz code) →
      Event.persistJobStatus JobStatus.error (some (SyncError.exc e))
        ∈ (execute st job conn senv env denv).trace) := by
  refine ⟨?_, ?_, ?_, ?_⟩
  · intro he
    subst he
    have hm := persist_mem_execute st job conn senv env denv hrun hstart hreload
      JobStatus.suspended none (by rw [hexit]; rfl)
    simpa using hm
  · intro he
    subst he
    have hm := persist_mem_execute st job conn senv env denv hrun hstart hreload
      JobStatus.canceled none (by rw [hexit]; rfl)
    simpa using hm
  · intro code he
    subst he
    have hm := persist_mem_execute st job conn senv env denv hrun hstart hreload
      JobStatus.error (some (SyncError.msg (authzErrorMsg job.indexName code)))
      (by rw [hexit]; rfl)
    refine ⟨by simpa using hm, "Connector is not authorized to access index [",
      "]. API key may need to be regenerated. Status code: [", "].", rfl⟩
  · intro hc hjc hna
    have hse : exitStatus job.indexName (tryBody job conn env).exit =
        (JobStatus.error, some (SyncError.exc e)) := by
      rw [hexit]
      cases e with
      | cancelled => exact absurd rfl hc
      | jobCanceled => exact absurd rfl hjc
      | authz code => exact absurd rfl (hna code)
      | unsupportedJobType m => rfl
      | insufficientLicense => rfl
      | apiKeyNotFound m => rfl
      | connectorNotFound => rfl
      | jobNotFound => rfl
      | jobNotRunning s => rfl
      | other m => rfl
    have hm := persist_mem_execute st job conn senv env denv hrun hstart hreload
      JobStatus.error (some (SyncError.exc e)) hse
    simpa using hm

/-- Witness for C1: with `ping()` raising an authorization exception (status
code 403), the persisted status is Error with the credential-rotation
message for the job's index. -/
theorem execute_error_status_mapping_witness :
    Event.persistJobStatus JobStatus.error
        (some (SyncError.msg (authzErrorMsg "search-idx" 403)))
      ∈ (execute stIdle jobEx connEx senvEx envAuthzEx denvEx).trace :=
  ((execute_error_status_mapping stIdle jobEx connEx senvEx envAuthzEx denvEx
      (Exc.authz 403) rfl (by decide) rfl (by decide)).2.2.1 403 rfl).1


/-- C7: when the change probe returns false after the claim, the run is
finalized Completed (persisted when the job record reloads), and neither
field validation, configuration validation, the ping, nor the Bulk Sink
(orchestrator creation, content-index preparation, `async_bulk`) is ever
invoked. -/
theorem execute_no_change_short_circuit (st : RunnerState) (job : SyncJob)
    (conn : Connector) (senv : StartEnv) (env : BodyEnv) (denv : DoneEnv)
    (hrun : st.running = false)
    (hstart : sync_starts conn job.jobType senv = StartResult.ok)
    (hclaim : env.claimExc = none)
    (hch : env.changed = false) :
    (execute st job conn senv env denv).outcome =
      ExecOutcome.returned JobStatus.completed none ∧
    (denv.reloadSyncJobOk = true →
      Event.persistJobStatus JobStatus.completed none
        ∈ (execute st job conn senv env denv).trace) ∧
    Event.validateConfigFields ∉ (execute st job conn senv env denv).trace ∧
    Event.validateConfig ∉ (execute st job conn senv env denv).trace ∧
    Event.ping ∉ (execute st job conn senv env denv).trace ∧
    Event.createOrchestrator ∉ (execute st job conn senv env denv).trace ∧
    Event.prepareContentIndex ∉ (execute st job conn senv env denv).trace ∧
    (∀ jt2, Event.asyncBulk jt2 ∉ (execute st job conn senv env denv).trace) := by
  have hb : tryBody job conn env =
      ⟨[Event.claim (if job.jobType = JobType.incremental ∨ job.jobType = JobType.full then
            conn.syncCursor else none),
          Event.instantiateProvider]
        ++ (if job.syncCursor.isSome ∧ job.jobType = JobType.full then
              [Event.setSyncCursor job.syncCursor] else [])
        ++ [Event.changedProbe],
       BodyExit.earlyCompleted, true, false, false⟩ := by
    unfold tryBody
    simp only [hclaim]
    simp only [hch, Bool.false_eq_true, not_false_eq_true, if_true]
  refine ⟨?_, ?_, ?_, ?_, ?_, ?_, ?_, ?_⟩
  · simp [execute, hrun, hstart, hb, exitStatus]
  · intro hreload
    have hm := persist_mem_execute st job conn senv env denv hrun hstart hreload
      JobStatus.completed none (by rw [hb]; rfl)
    simpa using hm
  · simp only [execute, hrun, Bool.false_eq_true, if_false, hstart, hb, exitStatus,
      sync_done, List.mem_append]
    split_ifs <;> simp
  · simp only [execute, hrun, Bool.false_eq_true, if_false, hstart, hb, exitStatus,
      sync_done, List.mem_append]
    split_ifs <;> simp
  · simp only [execute, hrun, Bool.false_eq_true, if_false, hstart, hb, exitStatus,
      sync_done, List.mem_append]
    split_ifs <;> simp
  · simp only [execute, hrun, Bool.false_eq_true, if_false, hstart, hb, exitStatus,
      sync_done, List.mem_append]
    split_ifs <;> simp
  · simp only [execute, hrun, Bool.false_eq_true, if_false, hstart, hb, exitStatus,
      sync_done, List.mem_append]
    split_ifs <;> simp
  · intro jt2
    simp only [execute, hrun, Bool.false_eq_true, if_false, hstart, hb, exitStatus,
      sync_done, List.mem_append]
    split_ifs <;> simp

/-- Witness for C7: a full-sync run whose change probe reports no change
completes without validating, pinging, or touching the sink. -/
theorem execute_no_change_short_circuit_witness :
    (execute stIdle jobEx connEx senvEx envNoChangeEx denvEx).outcome =
      ExecOutcome.returned JobStatus.completed none ∧
    Event.persistJobStatus JobStatus.completed none
      ∈ (execute stIdle jobEx connEx senvEx envNoChangeEx denvEx).trace ∧
    Event.ping ∉ (execute stIdle jobEx connEx senvEx envNoChangeEx denvEx).trace := by
  have h := execute_no_change_short_circuit stIdle jobEx connEx senvEx envNoChangeEx denvEx
    rfl (by decide) rfl rfl
  exact ⟨h.1, h.2.1 rfl, h.2.2.2.2.1⟩

/-- C10: an Incremental job whose connector does not enable incremental sync
raises `UnsupportedJobType` inside `_execute_content_sync_job` before
filtering validation, content-index preparation, or `async_bulk`, and the
run is finalized with status Error recording that exception. -/
theorem execute_incremental_unsupported (st : RunnerState) (job : SyncJob)
    (conn : Connector) (senv : StartEnv) (env : BodyEnv) (denv : DoneEnv)
    (hrun : st.running = false)
    (hstart : sync_starts conn job.jobType senv = StartResult.ok)
    (hclaim : env.claimExc = none) (hch : env.changed = true)
    (hvcf : env.validateConfigFieldsExc = none)
    (hvc : env.validateConfigExc = none)
    (hping : env.pingExc = none)
    (hna : env.nativeAuthExc = none)
    (hjt : job.jobType = JobType.incremental)
    (hfeat : conn.features.incrementalSyncEnabled = false)
    (hreload : denv.reloadSyncJobOk = true) :
    (tryBody job conn env).exit =
      BodyExit.raised (Exc.unsupportedJobType (some ("Connector " ++ conn.id
        ++ " does not support incremental sync."))) ∧
    Event.persistJobStatus JobStatus.error
        (some (SyncError.exc (Exc.unsupportedJobType (some ("Connector " ++ conn.id
          ++ " does not support incremental sync.")))))
      ∈ (execute st job conn senv env denv).trace ∧
    Event.validateFiltering ∉ (execute st job conn senv env denv).trace ∧
    Event.prepareContentIndex ∉ (execute st job conn senv env denv).trace ∧
    (∀ jt2, Event.asyncBulk jt2 ∉ (execute st job conn senv env denv).trace) := by
  have hcse : contentSyncEvents job conn env =
      ([], some (Exc.unsupportedJobType (some ("Connector " ++ conn.id
        ++ " does not support incremental sync.")))) := by
    unfold contentSyncEvents
    simp [hjt, hfeat]
  have hb : tryBody job conn env =
      ⟨[Event.claim conn.syncCursor, Event.instantiateProvider, Event.changedProbe,
          Event.setFeatures, Event.validateConfigFields, Event.validateConfig, Event.ping]
        ++ (if conn.native ∧ conn.features.nativeConnectorApiKeysEnabled = true
              ∧ env.useNativeApiKeysConfig = true then [Event.nativeAuth] else [])
        ++ [Event.createOrchestrator],
       BodyExit.raised (Exc.unsupportedJobType (some ("Connector " ++ conn.id
         ++ " does not support incremental sync."))),
       true, true, false⟩ := by
    unfold tryBody
    simp only [hclaim]
    simp only [hch, Bool.not_true, Bool.false_eq_true, not_false_eq_true,
      not_true_eq_false, if_false, if_true]
    simp only [hvcf, hvc, hping, hna, Option.isSome_none, Bool.false_eq_true,
      and_false, dite_false]
    simp only [hjt]
    simp only [hcse]
    simp [hjt, List.append_assoc]
  refine ⟨by rw [hb], ?_, ?_, ?_, ?_⟩
  · have hm := persist_mem_execute st job conn senv env denv hrun hstart hreload
      JobStatus.error (some (SyncError.exc (Exc.unsupportedJobType (some ("Connector "
        ++ conn.id ++ " does not support incremental sync.")))))
      (by rw [hb]; rfl)
    simpa using hm
  · simp only [execute, hrun, Bool.false_eq_true, if_false, hstart, hb, exitStatus,
      exceptDispatch, sync_done, List.mem_append]
    split_ifs <;> simp
  · simp only [execute, hrun, Bool.false_eq_true, if_false, hstart, hb, exitStatus,
      exceptDispatch, sync_done, List.mem_append]
    split_ifs <;> simp
  · intro jt2
    simp only [execute, hrun, Bool.false_eq_true, if_false, hstart, hb, exitStatus,
      exceptDispatch, sync_done, List.mem_append]
    split_ifs <;> simp

/-- Witness for C10: an incremental job on a connector without the
incremental-sync feature is persisted as Error with the UnsupportedJobType
exception. -/
theorem execute_incremental_unsupported_witness :
    Event.persistJobStatus JobStatus.error
        (some (SyncError.exc (Exc.unsupportedJobType
          (some "Connector c2 does not support incremental sync."))))
      ∈ (execute stIdle jobIncEx connNoIncEx senvEx envEx denvEx).trace :=
  (execute_incremental_unsupported stIdle jobIncEx connNoIncEx senvEx envEx denvEx
    rfl (by decide) rfl rfl rfl rfl rfl rfl rfl rfl rfl).2.1

theorem currentSyncCursor_null (dps : Bool) (jt : JobType) (pc : Option String)
    (h : jt = JobType.accessControl ∨ dps = false) :
    currentSyncCursor dps jt pc = none := by
  rcases h with h | h
  · subst h
    cases dps <;> simp [currentSyncCursor, isContentSync]
  · subst h
    simp [currentSyncCursor]

/-- C8: the cursor persisted to the connector at finalization and the cursor
persisted by every reporter tick are null for AccessControl jobs and
whenever the data provider was never instantiated, on every termination
path. -/
theorem cursor_null_for_acl_or_uninitialized :
    (∀ (st : RunnerState) (job : SyncJob) (conn : Connector) (senv : StartEnv)
        (env : BodyEnv) (denv : DoneEnv) (c : Option String),
      Event.connectorSyncDone c ∈ (execute st job conn senv env denv).trace →
      (job.jobType = JobType.accessControl ∨
        (execute st job conn senv env denv).finalState.dataProviderSet = false) →
      c = none) ∧
    (∀ (dps : Bool) (jt : JobType) (tenv : TickEnv) (last c : Option String),
      Event.updateMetadata c ∈ (reporterTick dps jt tenv last).1 →
      (jt = JobType.accessControl ∨ dps = false) →
      c = none) := by
  constructor
  · intro st job conn senv env denv c hmem hcond
    unfold execute at hmem hcond
    by_cases hr : st.running = true
    · rw [if_pos hr] at hmem
      simp at hmem
    · rw [if_neg hr] at hmem hcond
      rcases hs : sync_starts conn job.jobType senv with _ | ⟨ms, cs⟩ | _ <;>
        simp only [hs] at hmem hcond
      · rw [sync_done] at hmem
        split_ifs at hmem <;>
          simp only [List.mem_append, List.mem_singleton, List.mem_cons,
            List.not_mem_nil, or_false, false_or,
            connectorSyncDone_not_mem_tryBody job conn env c,
            Event.connectorSyncDone.injEq, reduceCtorEq] at hmem <;>
          (subst hmem
           exact currentSyncCursor_null _ _ _ (by simpa using hcond))
      · simp at hmem
      · simp at hmem
  · intro dps jt tenv last c hmem hcond
    have hcn := currentSyncCursor_null dps jt tenv.providerCursor hcond
    unfold reporterTick at hmem
    rw [hcn] at hmem
    by_cases hre : tenv.reloadSyncJobOk = true
    · simp only [hre, not_true_eq_false, if_false] at hmem
      by_cases hl : (none : Option String) = last
      · rw [if_neg (by simpa using hl)] at hmem
        simp only [List.mem_singleton, Event.updateMetadata.injEq, ← hl] at hmem
        exact hmem
      · rw [if_pos (by simpa using hl)] at hmem
        simp only [List.mem_cons, List.mem_singleton, List.not_mem_nil, or_false,
          reduceCtorEq, false_or, Event.updateMetadata.injEq] at hmem
        exact hmem
    · have hre2 : tenv.reloadSyncJobOk = false := by
        cases h : tenv.reloadSyncJobOk
        · rfl
        · exact absurd h hre
      simp [hre2] at hmem

/-- Witness for C8: an access-control run emits `connector.sync_done` with a
null cursor even though the provider reports one, and a reporter tick for an
access-control job persists a null cursor. -/
theorem cursor_null_for_acl_or_uninitialized_witness :
    Event.connectorSyncDone none
      ∈ (execute stIdle jobAclEx connEx senvEx envEx denvEx).trace ∧
    (none : Option String) = none ∧
    Event.updateMetadata none
      ∈ (reporterTick true JobType.accessControl tickEnvEx (some "x")).1 ∧
    (none : Option String) = none :=
  ⟨by decide,
   cursor_null_for_acl_or_uninitialized.1 stIdle jobAclEx connEx senvEx envEx denvEx none
     (by decide) (Or.inl rfl),
   by decide,
   cursor_null_for_acl_or_uninitialized.2 true JobType.accessControl tickEnvEx (some "x") none
     (by decide) (Or.inl rfl)⟩
